import Mathlib

/-!
Verification of the eye-cursor interaction engine against its
natural-language specification.

Shallow embedding conventions:
* Python floats are modelled as `ℚ` (the claims under scrutiny concern
  exact comparisons, orderings and clamping, not rounding of IEEE floats).
* Python `int(x)` (truncation toward zero) is `pyInt`.
* `collections.deque(maxlen=n)` with `append` is `pushDeque n`.
* Comparisons of Euclidean distances (`math.hypot`) and of the derived
  gaze speed against nonnegative thresholds are embedded as comparisons
  of their squares, which is equivalent because `Real.sqrt` is monotone
  on nonnegatives.  `distSq a b` is the square of `dist(a, b)` from
  `gaze_lock.py`, and `estimateVelocitySq` is the square of
  `GazeLockManager.estimate_velocity` (both are `0` exactly when the
  source value is `0.0`).
* Fallible code returns `Except`/`Option`.
-/

/-- Python `int(q)`: truncation toward zero, i.e. the ceiling for
negative arguments and the floor otherwise. -/
def pyInt (q : ℚ) : ℤ := if q < 0 then ⌈q⌉ else ⌊q⌋

/-- `collections.deque(maxlen = n)`: appending `x` drops elements from the
front once the length would exceed `n`. -/
def pushDeque {α : Type} (n : ℕ) (xs : List α) (x : α) : List α :=
  let l := xs ++ [x]
  if l.length ≤ n then l else l.drop (l.length - n)

/-! ## smoothing.py — `SmoothFilter` -/

/-- State of `SmoothFilter` (`smoothing.py`): the two rolling buffers
(`deque(maxlen=ma_window)`) and the previous smoothed point. -/
structure SmoothState where
  ma_window : ℕ
  exp_alpha : ℚ
  buffer_x : List ℚ
  buffer_y : List ℚ
  prev : Option (ℚ × ℚ)
deriving Repr, DecidableEq

/-- `SmoothFilter.__init__(ma_window, exp_alpha)`. -/
def smoothInit (ma_window : ℕ) (exp_alpha : ℚ) : SmoothState :=
  { ma_window := ma_window, exp_alpha := exp_alpha,
    buffer_x := [], buffer_y := [], prev := none }

/-- `SmoothFilter.update(x, y)` from `smoothing.py`: append to both
buffers, take the arithmetic means, and either return the means (first
call, seeding `prev`) or the `int(...)`-truncated exponential smoothing
of the means with the previous smoothed point. -/
def smoothUpdate (s : SmoothState) (x y : ℚ) : (ℚ × ℚ) × SmoothState :=
  let bx := pushDeque s.ma_window s.buffer_x x
  let bY := pushDeque s.ma_window s.buffer_y y
  let avg_x := bx.sum / (bx.length : ℚ)
  let avg_y := bY.sum / (bY.length : ℚ)
  match s.prev with
  | none =>
      ((avg_x, avg_y),
       { s with buffer_x := bx, buffer_y := bY, prev := some (avg_x, avg_y) })
  | some (px, py) =>
      let sx : ℚ := (pyInt (s.exp_alpha * avg_x + (1 - s.exp_alpha) * px) : ℤ)
      let sy : ℚ := (pyInt (s.exp_alpha * avg_y + (1 - s.exp_alpha) * py) : ℤ)
      ((sx, sy),
       { s with buffer_x := bx, buffer_y := bY, prev := some (sx, sy) })

/-! ## calibration.py — `Calibration` -/

/-- The data `Calibration` carries (drawing/window fields omitted; they
never feed the mapping or the collection logic). -/
structure Calib where
  points : List (String × (ℚ × ℚ))
  dx_min : ℚ
  dx_max : ℚ
  dy_min : ℚ
  dy_max : ℚ
deriving Repr, DecidableEq

/-- `Calibration.__init__`: empty point dictionary, extent `[0,1] × [0,1]`. -/
def calibInit : Calib :=
  { points := [], dx_min := 0, dx_max := 1, dy_min := 0, dy_max := 1 }

/-- The stopping rules at the bottom of `Calibration._collect`
(`calibration.py` lines 102–106), checked once per camera frame after the
gaze sample (if any) was appended:
`len(samples) >= max_samples`, or
`elapsed >= max_time and len(samples) >= min_samples`. -/
def collectStop (min_samples max_samples : ℕ) (max_time : ℚ)
    (samples : ℕ) (elapsed : ℚ) : Bool :=
  decide (max_samples ≤ samples) ||
    (decide (max_time ≤ elapsed) && decide (min_samples ≤ samples))

/-- The loop of `Calibration._collect`, run for at most `fuel` delivered
camera frames.  `provider i` is the `norm_func()` outcome on iteration
`i` (`none` when it returned `None` or raised — the `try/except` wraps
it), `elapsedAt i` is `time.time() - start` on iteration `i`.  Returns
`some samples` when a stopping rule fires within `fuel` iterations and
`none` when the loop is still running after `fuel` iterations.  Frames
where `cap.read()` fails only `continue`; iterations here are the
delivered frames.  The drawing / `cv2.imshow` / ignored `q` key parts
have no effect on the loop state. -/
def collectLoop (provider : ℕ → Option (ℚ × ℚ)) (elapsedAt : ℕ → ℚ)
    (min_samples max_samples : ℕ) (max_time : ℚ) :
    ℕ → ℕ → List (ℚ × ℚ) → Option (List (ℚ × ℚ))
  | 0, _, _ => none
  | fuel + 1, i, samples =>
      let samples :=
        match provider i with
        | some v => samples ++ [v]
        | none => samples
      if collectStop min_samples max_samples max_time samples.length (elapsedAt i) then
        some samples
      else
        collectLoop provider elapsedAt min_samples max_samples max_time fuel (i + 1) samples

/-- `statistics.median`: middle of the sorted list for odd length, mean
of the two middles for even length. -/
def median (xs : List ℚ) : ℚ :=
  let l := xs.insertionSort (· ≤ ·)
  let n := l.length
  if n % 2 = 1 then l.getD (n / 2) 0
  else (l.getD (n / 2 - 1) 0 + l.getD (n / 2) 0) / 2

/-- The per-point processing and extent computation of
`Calibration.record_all` (`calibration.py` lines 119–147), abstracted
over the sample list `_collect` returned for each labelled point: points
with fewer than 4 samples are skipped (`continue`); each kept point's
anchor is the per-axis median; the extent is the min/max over the kept
anchors.  `min([])`/`max([])` raise `ValueError` in Python, which
propagates to the caller: that is the `Except.error` case. -/
def recordAll (collected : List (String × List (ℚ × ℚ))) : Except String Calib :=
  let points := collected.filterMap fun p =>
    if p.2.length < 4 then none
    else some (p.1, (median (p.2.map Prod.fst), median (p.2.map Prod.snd)))
  let xs := points.map fun p => p.2.1
  let ys := points.map fun p => p.2.2
  match xs.max? , xs.min? , ys.max? , ys.min? with
  | some xmax, some xmin, some ymax, some ymin =>
      Except.ok { points := points, dx_min := xmin, dx_max := xmax,
                  dy_min := ymin, dy_max := ymax }
  | _, _, _, _ => Except.error "min() arg is an empty sequence"

/-- `Calibration.map_norm_to_screen(nx, ny, sw, sh, m)`
(`calibration.py` lines 149–158): rescale by the stored extent with the
denominator floored at `1e-6`, clamp to `[0,1]`, scale to the screen,
truncate to `int`, and clamp to `[m, dimension - m]`. -/
def mapNormToScreen (c : Calib) (nx ny : ℚ) (sw sh m : ℤ) : ℤ × ℤ :=
  let denom_x := max (c.dx_max - c.dx_min) (1 / 1000000)
  let denom_y := max (c.dy_max - c.dy_min) (1 / 1000000)
  let rx := (nx - c.dx_min) / denom_x
  let ry := (ny - c.dy_min) / denom_y
  let rx := min (max rx 0) 1
  let ry := min (max ry 0) 1
  let sx := pyInt (rx * (sw : ℚ))
  let sy := pyInt (ry * (sh : ℚ))
  (max m (min (sw - m) sx), max m (min (sh - m) sy))

/-! ## blink_detection.py — `BlinkDetector`

`_ratios` derives two landmark-based eyelid ratios from the external
face-landmark provider; `update` is modelled from the point where those
two scalars (`rawL` for the image-left channel, `rawR` for the
image-right channel) and `time.time()` are in hand. -/

/-- The timing parameters fixed by `BlinkDetector.__init__`. -/
structure BlinkParams where
  close_thr : ℚ
  open_thr : ℚ
  blink_min : ℚ
  blink_max : ℚ
  wink_min : ℚ
  wink_max : ℚ
deriving Repr, DecidableEq

/-- The mutable state of `BlinkDetector`. -/
structure BlinkState where
  l_closed_raw : Bool
  r_closed_raw : Bool
  prev_L : Bool
  prev_R : Bool
  prev_B : Bool
  tL : ℚ
  tR : ℚ
  tB : ℚ
  both_dominant : Bool
deriving Repr, DecidableEq

/-- The per-frame dictionary `BlinkDetector.update` returns. -/
structure BlinkOut where
  left_closed : Bool
  right_closed : Bool
  both_closed : Bool
  left_blink : Bool
  right_blink : Bool
  both_blink : Bool
deriving Repr, DecidableEq

/-- `BlinkDetector.__init__(eye_close_thr, min_closed_ms, open_thr_offset,
blink_min, blink_max, wink_min, wink_max)`: `open_thr = close_thr +
offset`; with `base = min_closed_ms / 1000`, the window defaults are
`blink_min = 0.4*base`, `blink_max = 3.0*base`, `wink_min = 0.5*base`,
`wink_max = 3.5*base`, each overridable by a non-`None` argument. -/
def blinkInit (eye_close_thr min_closed_ms open_thr_offset : ℚ)
    (blink_minO blink_maxO wink_minO wink_maxO : Option ℚ) : BlinkParams :=
  let base := min_closed_ms / 1000
  { close_thr := eye_close_thr
    open_thr := eye_close_thr + open_thr_offset
    blink_min := blink_minO.getD (base * (4 / 10))
    blink_max := blink_maxO.getD (base * 3)
    wink_min := wink_minO.getD (base * (5 / 10))
    wink_max := wink_maxO.getD (base * (35 / 10)) }

/-- The initial `BlinkDetector` state set in `__init__`. -/
def blinkInitState : BlinkState :=
  { l_closed_raw := false, r_closed_raw := false,
    prev_L := false, prev_R := false, prev_B := false,
    tL := 0, tR := 0, tB := 0, both_dominant := false }

/-- `BlinkDetector.update` (`blink_detection.py` lines 124–211) given the
two raw ratios and the current time, in source order:
1. hysteresis on the raw image-side channels,
2. mirror correction (image-left channel is the user's right eye),
3. both-eyes branch — on both-close set `tB` and `both_dominant`; on
   both-open classify the duration against `[blink_min, blink_max]` and
   clear `both_dominant`,
4. per-eye branches — on open, a wink requires `not both_dominant` (read
   after step 3 updated it) and the duration within
   `[wink_min, wink_max]`,
5. store the previous states and discard winks when `both_blink` fired. -/
def blinkUpdate (p : BlinkParams) (s : BlinkState) (rawL rawR now : ℚ) :
    BlinkOut × BlinkState :=
  let l_closed_raw : Bool :=
    if s.l_closed_raw then decide (rawL < p.open_thr) else decide (rawL < p.close_thr)
  let r_closed_raw : Bool :=
    if s.r_closed_raw then decide (rawR < p.open_thr) else decide (rawR < p.close_thr)
  let L := r_closed_raw
  let R := l_closed_raw
  let B := L && R
  let tB := if B && !s.prev_B then now else s.tB
  let both_dominant := if B && !s.prev_B then true else s.both_dominant
  let dB := now - tB
  let both_blink : Bool :=
    if !B && s.prev_B then decide (p.blink_min ≤ dB ∧ dB ≤ p.blink_max) else false
  let both_dominant := if !B && s.prev_B then false else both_dominant
  let tL := if L && !s.prev_L then now else s.tL
  let dL := now - tL
  let left_blink : Bool :=
    if !L && s.prev_L then
      !both_dominant && decide (p.wink_min ≤ dL ∧ dL ≤ p.wink_max)
    else false
  let tR := if R && !s.prev_R then now else s.tR
  let dR := now - tR
  let right_blink : Bool :=
    if !R && s.prev_R then
      !both_dominant && decide (p.wink_min ≤ dR ∧ dR ≤ p.wink_max)
    else false
  let left_blink := if both_blink then false else left_blink
  let right_blink := if both_blink then false else right_blink
  ({ left_closed := L, right_closed := R, both_closed := B,
     left_blink := left_blink, right_blink := right_blink, both_blink := both_blink },
   { l_closed_raw := l_closed_raw, r_closed_raw := r_closed_raw,
     prev_L := L, prev_R := R, prev_B := B,
     tL := tL, tR := tR, tB := tB, both_dominant := both_dominant })

/-! ## gaze_lock.py — `GazeLockManager`

`push_gaze` also runs a `Kalman2D` predict/update pair, but the filter
feeds only the local variable `predicted`, which is never used by the
decision logic or the returned record, so the filter state is not part
of this embedding. -/

/-- The fields of a target record that `gaze_lock.py` reads
(`t['center']`, `t['id']`). -/
structure Target where
  id : String
  center : ℚ × ℚ
deriving Repr, DecidableEq

/-- Square of `dist(a, b) = math.hypot(a[0]-b[0], a[1]-b[1])`. -/
def distSq (a b : ℚ × ℚ) : ℚ := (a.1 - b.1) ^ 2 + (a.2 - b.2) ^ 2

/-- `GazeLockManager` configuration and mutable state. -/
structure LockState where
  snap_radius : ℚ
  unlock_distance : ℚ
  dwell_time : ℚ
  vel_thresh : ℚ
  vel_window : ℕ
  dead_zone : ℚ
  sustained_away_time : ℚ
  targets : List Target
  locked_target : Option Target
  lock_time : Option ℚ
  gaze_history : List (ℚ × ℚ)
  time_history : List ℚ
  candidate : Option Target
  candidate_start : Option ℚ
  away_since : Option ℚ
deriving Repr, DecidableEq

/-- `GazeLockManager.__init__` with the source defaults. -/
def lockInit : LockState :=
  { snap_radius := 140, unlock_distance := 240, dwell_time := 6 / 100,
    vel_thresh := 180, vel_window := 6, dead_zone := 18,
    sustained_away_time := 20 / 100,
    targets := [], locked_target := none, lock_time := none,
    gaze_history := [], time_history := [],
    candidate := none, candidate_start := none, away_since := none }

/-- The record `push_gaze` returns (`time_left` is present only in the
candidate-state returns). -/
structure LockResult where
  state : String
  target : Option Target
  cursor_pos : ℚ × ℚ
  action : String
  time_left : Option ℚ
deriving Repr, DecidableEq

/-- `GazeLockManager.update_targets(targets)`. -/
def updateTargets (s : LockState) (ts : List Target) : LockState :=
  { s with targets := ts }

/-- Square of `GazeLockManager.estimate_velocity()`: `0` when the history
holds fewer than two samples or the window's time span is `≤ 1e-6`
(guarding the division), else `(hypot(dx, dy) / dt)^2`.  The source
value is `0.0` exactly when this is `0`. -/
def estimateVelocitySq (s : LockState) : ℚ :=
  if s.gaze_history.length < 2 then 0
  else
    let dt := s.time_history.getLastD 0 - s.time_history.headD 0
    if dt ≤ 1 / 1000000 then 0
    else distSq (s.gaze_history.getLastD (0, 0)) (s.gaze_history.headD (0, 0)) / dt ^ 2

/-- The nearest-target scan of `push_gaze` (`gaze_lock.py` lines 92–98):
iterate over the targets keeping the strictly closest one; returns the
winner together with its squared distance. -/
def findNearestAux (gaze : ℚ × ℚ) (acc : Option (Target × ℚ)) :
    List Target → Option (Target × ℚ)
  | [] => acc
  | t :: ts =>
      let d := distSq gaze t.center
      let acc :=
        match acc with
        | none => some (t, d)
        | some (b, bd) => if d < bd then some (t, d) else some (b, bd)
      findNearestAux gaze acc ts

/-- `nearest`/`nearest_d` after the scan (`nearest_d` starts at `inf`, so
the first target always replaces it). -/
def findNearest (gaze : ℚ × ℚ) (ts : List Target) : Option (Target × ℚ) :=
  findNearestAux gaze none ts

/-- `GazeLockManager.push_gaze(gaze_px)` (`gaze_lock.py` lines 52–124):
append to the histories, estimate the velocity, then either run the
locked-branch dead-zone / fast-flick / sustained-away rules or the
free/candidate branch (nearest-target scan, snap on low velocity,
candidate start / dwell promotion).  Distance and velocity comparisons
are the squared forms of the source's comparisons.  In the source
`candidate_start` is always set alongside `candidate`; its `getD 0`
reading here is only ever reached with `candidate` set. -/
def pushGaze (s : LockState) (gaze : ℚ × ℚ) (now : ℚ) : LockResult × LockState :=
  let s := { s with gaze_history := pushDeque s.vel_window s.gaze_history gaze,
                    time_history := pushDeque s.vel_window s.time_history now }
  let velSq := estimateVelocitySq s
  match s.locked_target with
  | some lt =>
      let tx := lt.center
      let dSq := distSq gaze tx
      if dSq ≤ s.dead_zone ^ 2 then
        ({ state := "locked", target := some lt, cursor_pos := tx,
           action := "none", time_left := none },
         { s with away_since := none })
      else if s.unlock_distance ^ 2 < dSq ∧ s.vel_thresh ^ 2 < velSq then
        ({ state := "free", target := none, cursor_pos := gaze,
           action := "unlock", time_left := none },
         { s with locked_target := none, away_since := none, candidate := none })
      else if s.unlock_distance ^ 2 < dSq then
        match s.away_since with
        | none =>
            ({ state := "locked", target := some lt, cursor_pos := tx,
               action := "none", time_left := none },
             { s with away_since := some now })
        | some a =>
            if s.sustained_away_time ≤ now - a then
              ({ state := "free", target := none, cursor_pos := gaze,
                 action := "unlock_sustained", time_left := none },
               { s with locked_target := none, away_since := none, candidate := none })
            else
              ({ state := "locked", target := some lt, cursor_pos := tx,
                 action := "none", time_left := none }, s)
      else
        ({ state := "locked", target := some lt, cursor_pos := tx,
           action := "none", time_left := none },
         { s with away_since := none })
  | none =>
      match findNearest gaze s.targets with
      | none =>
          ({ state := "free", target := none, cursor_pos := gaze,
             action := "none", time_left := none },
           { s with candidate := none, candidate_start := none })
      | some (nearest, nearest_dSq) =>
          if s.snap_radius ^ 2 < nearest_dSq then
            ({ state := "free", target := none, cursor_pos := gaze,
               action := "none", time_left := none },
             { s with candidate := none, candidate_start := none })
          else if velSq < (s.vel_thresh * (35 / 100)) ^ 2 then
            ({ state := "locked", target := some nearest, cursor_pos := nearest.center,
               action := "snap", time_left := none },
             { s with locked_target := some nearest, lock_time := some now,
                      candidate := none, candidate_start := none })
          else if s.candidate.map Target.id ≠ some nearest.id then
            ({ state := "candidate", target := some nearest, cursor_pos := nearest.center,
               action := "candidate_started", time_left := some s.dwell_time },
             { s with candidate := some nearest, candidate_start := some now })
          else if s.dwell_time ≤ now - s.candidate_start.getD 0 then
            ({ state := "locked", target := s.candidate, cursor_pos := nearest.center,
               action := "snap", time_left := none },
             { s with locked_target := s.candidate, lock_time := some now,
                      candidate := none, candidate_start := none })
          else
            ({ state := "candidate", target := some nearest, cursor_pos := nearest.center,
               action := "dwell",
               time_left := some (s.dwell_time - (now - s.candidate_start.getD 0)) }, s)

/-! ## main.py — the drag/click slice of the control loop

The per-frame body of `main` runs entirely inside
`if res.multi_face_landmarks:` — a frame with no detected face skips the
whole block.  Modelled here are the parts that read or write
`drag_active`, `scroll_mode` or the left mouse button: scroll-mode
management (lines 701–709), the click actions (735–754) and the drag
block (760–774).  The omitted parts of the face branch (head baseline,
UI-settings reload, scroll emission, gaze mapping and cursor motion)
touch none of that state; the left-button level tracked in
`mouse_left_down` models the actuation sink driven by
`pyautogui.mouseDown/mouseUp(button="left")` (`click`/`doubleClick` are
atomic press-releases and leave the level down unchanged). -/

/-- The `pyautogui` calls the modelled slice can emit, in order. -/
inductive MEvent where
  | mouseDownLeft
  | mouseUpLeft
  | clickLeft
  | doubleClickLeft
  | clickRight
deriving Repr, DecidableEq

/-- The blink-detector outputs the loop body consumes. -/
structure FrameIn where
  left_closed : Bool
  right_closed : Bool
  both_closed : Bool
  left_blink : Bool
  right_blink : Bool
  both_blink : Bool
deriving Repr, DecidableEq

/-- `SCROLL_ACTIVATION = 0.23` (`main.py` line 55). -/
def scrollActivation : ℚ := 23 / 100

/-- `DOUBLE_CLICK_WINDOW = 0.55` (`main.py` line 57). -/
def doubleClickWindow : ℚ := 55 / 100

/-- `MAX_DRAG_DURATION = 2.5` (`main.py` line 58). -/
def maxDragDuration : ℚ := 5 / 2

/-- The loop state the modelled slice reads or writes. -/
structure MainState where
  drag_active : Bool
  drag_start_time : ℚ
  scroll_mode : Bool
  both_closed_start : Option ℚ
  last_left_click_time : ℚ
  mouse_left_down : Bool
deriving Repr, DecidableEq

/-- The state at module initialisation (`main.py` lines 165–170). -/
def mainInit : MainState :=
  { drag_active := false, drag_start_time := 0, scroll_mode := false,
    both_closed_start := none, last_left_click_time := 0,
    mouse_left_down := false }

/-- One frame of the control loop's drag/click slice.  `face = none` is a
frame where `res.multi_face_landmarks` is empty: the body is skipped
whole.  Otherwise, in source order: scroll-mode management, both-blink
drag release and click/double-click, right-wink click, then the drag
block with its `MAX_DRAG_DURATION` timeout.  Returns the new state and
the emitted actuation events. -/
def mainStep (s : MainState) (face : Option FrameIn) (now : ℚ) :
    MainState × List MEvent :=
  match face with
  | none => (s, [])
  | some f =>
      let both_closed_start : Option ℚ :=
        if f.both_closed then some (s.both_closed_start.getD now) else none
      let scroll_mode : Bool :=
        if f.both_closed then
          if !s.scroll_mode &&
              decide (scrollActivation ≤ now - (s.both_closed_start.getD now)) &&
              !s.drag_active then
            true
          else s.scroll_mode
        else false
      let dragAfterBlink : Bool × Bool × List MEvent :=
        if !scroll_mode && f.both_blink && s.drag_active then
          (false, false, [MEvent.mouseUpLeft])
        else (s.drag_active, s.mouse_left_down, [])
      let drag_active := dragAfterBlink.1
      let mouse_left_down := dragAfterBlink.2.1
      let ev1 := dragAfterBlink.2.2
      let clickStep : ℚ × List MEvent :=
        if !scroll_mode && f.both_blink then
          if now - s.last_left_click_time ≤ doubleClickWindow then
            (0, [MEvent.doubleClickLeft])
          else (now, [MEvent.clickLeft])
        else (s.last_left_click_time, [])
      let last_left_click_time := clickStep.1
      let ev2 := clickStep.2
      let ev3 := if !scroll_mode && f.right_blink then [MEvent.clickRight] else []
      let dragStep : Bool × ℚ × Bool × List MEvent :=
        if f.left_closed && !f.right_closed && !f.both_closed && !scroll_mode then
          if !drag_active then
            (true, now, true, [MEvent.mouseDownLeft])
          else if decide (maxDragDuration < now - s.drag_start_time) then
            (false, s.drag_start_time, false, [MEvent.mouseUpLeft])
          else (drag_active, s.drag_start_time, mouse_left_down, [])
        else
          if drag_active then (false, s.drag_start_time, false, [MEvent.mouseUpLeft])
          else (drag_active, s.drag_start_time, mouse_left_down, [])
      ({ drag_active := dragStep.1, drag_start_time := dragStep.2.1,
         scroll_mode := scroll_mode, both_closed_start := both_closed_start,
         last_left_click_time := last_left_click_time,
         mouse_left_down := dragStep.2.2.1 },
       ev1 ++ ev2 ++ ev3 ++ dragStep.2.2.2)

/-! ## Theorems -/

/-- C1: the claim says `Calibration._collect` terminates for every
behaviour of the gaze provider, including one that never yields a
sample.  It does not: with the source defaults (`min_samples=8`,
`max_samples=20`, `max_time=2.5`) and a provider that returns no sample
on every delivered frame, neither stopping rule ever fires — the
time-based exit also demands at least 8 samples — so the loop runs
forever: for every number of delivered frames `fuel`, from any iteration
`i`, the loop is still running.  This contradicts the method's own
docstring ("Never freezes"). -/
theorem collect_loop_starved_never_exits (elapsedAt : ℕ → ℚ) (fuel i : ℕ) :
    collectLoop (fun _ => none) elapsedAt 8 20 (5 / 2) fuel i [] = none := by
  induction fuel generalizing i with
  | zero => rfl
  | succ n ih =>
      simpa [collectLoop, collectStop] using ih (i + 1)

/-- C4 counterexample: the claim says `SmoothFilter.update` returns
exactly `alpha * movingAvg + (1 - alpha) * previousSmoothed` per axis
after the first call.  With `ma_window = 5`, `alpha = 4/5`, first call
`(1,1)` then second call `(2,2)`: the moving average is `3/2`, the
claimed formula yields `4/5 * 3/2 + 1/5 * 1 = 7/5`, but the code
truncates with `int(...)` and returns `1`. -/
theorem smooth_update_breaks_claim_formula :
    (smoothUpdate (smoothUpdate (smoothInit 5 (4 / 5)) 1 1).2 2 2).1.1 ≠
      4 / 5 * ((1 + 2) / 2) + (1 - 4 / 5) * 1 := by
  have h : pyInt (7 / 5) = 1 := by
    rw [pyInt, if_neg (by norm_num), Int.floor_eq_iff]
    norm_num
  norm_num [smoothUpdate, smoothInit, pushDeque, h]

/-- C4 amended: after the first call, `SmoothFilter.update` returns per
axis the Python-`int` truncation of
`alpha * movingAvg + (1 - alpha) * previousSmoothed`, where `movingAvg`
is the arithmetic mean of the rolling window of the last `ma_window` raw
coordinates; the first call (no previous smoothed value) returns the
moving average unmodified — without truncation — and seeds `prev` with
it. -/
theorem smooth_update_truncated_formula (s : SmoothState) (x y : ℚ) :
    (∀ px py, s.prev = some (px, py) →
      (smoothUpdate s x y).1 =
        (((pyInt (s.exp_alpha *
              ((pushDeque s.ma_window s.buffer_x x).sum /
                ((pushDeque s.ma_window s.buffer_x x).length : ℚ)) +
              (1 - s.exp_alpha) * px) : ℤ) : ℚ),
         ((pyInt (s.exp_alpha *
              ((pushDeque s.ma_window s.buffer_y y).sum /
                ((pushDeque s.ma_window s.buffer_y y).length : ℚ)) +
              (1 - s.exp_alpha) * py) : ℤ) : ℚ))) ∧
    (s.prev = none →
      (smoothUpdate s x y).1 =
        ((pushDeque s.ma_window s.buffer_x x).sum /
           ((pushDeque s.ma_window s.buffer_x x).length : ℚ),
         (pushDeque s.ma_window s.buffer_y y).sum /
           ((pushDeque s.ma_window s.buffer_y y).length : ℚ)) ∧
      (smoothUpdate s x y).2.prev = some (smoothUpdate s x y).1) := by
  constructor
  · intro px py h
    simp [smoothUpdate, h]
  · intro h
    simp [smoothUpdate, h]

/-- C4 witness: the amended theorem applied to the concrete second call
of the counterexample run evaluates to the truncated value `(1, 1)`. -/
theorem smooth_update_truncated_formula_witness :
    (smoothUpdate { ma_window := 5, exp_alpha := 4 / 5, buffer_x := [1],
                    buffer_y := [1], prev := some (1, 1) } 2 2).1 = (1, 1) := by
  have h := (smooth_update_truncated_formula
      { ma_window := 5, exp_alpha := 4 / 5, buffer_x := [1],
        buffer_y := [1], prev := some (1, 1) } 2 2).1 1 1 rfl
  have hp : pyInt (7 / 5) = 1 := by
    rw [pyInt, if_neg (by norm_num), Int.floor_eq_iff]
    norm_num
  rw [h]
  norm_num [pushDeque, hp]

/-- C7: for every calibration profile and every rational input
`(nx, ny)`, `Calibration.map_norm_to_screen` returns a pixel position
inside `[m, sw - m] × [m, sh - m]` whenever each screen dimension
exceeds twice the margin. -/
theorem map_norm_clamped (c : Calib) (nx ny : ℚ) (sw sh m : ℤ)
    (hw : 2 * m < sw) (hh : 2 * m < sh) :
    m ≤ (mapNormToScreen c nx ny sw sh m).1 ∧
    (mapNormToScreen c nx ny sw sh m).1 ≤ sw - m ∧
    m ≤ (mapNormToScreen c nx ny sw sh m).2 ∧
    (mapNormToScreen c nx ny sw sh m).2 ≤ sh - m := by
  refine ⟨le_max_left _ _, ?_, le_max_left _ _, ?_⟩
  · exact max_le (by omega) (min_le_left _ _)
  · exact max_le (by omega) (min_le_left _ _)

/-- C7 witness: the default (uncalibrated) profile maps the far-outside
input `(50, -3)` on a 1920×1080 screen with margin 12 to a point inside
`[12, 1908] × [12, 1068]`. -/
theorem map_norm_clamped_witness :
    (2 * 12 < (1920 : ℤ)) ∧ (2 * 12 < (1080 : ℤ)) ∧
    (12 ≤ (mapNormToScreen calibInit 50 (-3) 1920 1080 12).1 ∧
     (mapNormToScreen calibInit 50 (-3) 1920 1080 12).1 ≤ 1920 - 12 ∧
     12 ≤ (mapNormToScreen calibInit 50 (-3) 1920 1080 12).2 ∧
     (mapNormToScreen calibInit 50 (-3) 1920 1080 12).2 ≤ 1080 - 12) :=
  ⟨by decide, by decide,
   map_norm_clamped calibInit 50 (-3) 1920 1080 12 (by decide) (by decide)⟩

/-- C2: the claim says a both-eyes closure never produces single-eye wink
events, whatever its duration.  Evaluating `BlinkDetector.update` with
the source defaults (`eye_close_thr = 0.018`, `min_closed_ms = 220`, so
`blink_max = 0.66 s` and `wink_max = 0.77 s`) on a both-eyes closure at
`t = 0` (both ratios `0.001`) reopened at `t = 0.7 s` (both ratios
`0.1`): the closure set `both_dominant`, yet the reopening frame emits
`left_blink` and `right_blink` (and no `both_blink`), because the code
clears `both_dominant` in the both-open branch before the wink checks
run on the same frame. -/
theorem both_closure_emits_two_winks :
    (blinkUpdate (blinkInit (9 / 500) 220 (3 / 1000) none none none none)
        blinkInitState (1 / 1000) (1 / 1000) 0).2.both_dominant = true ∧
    (blinkUpdate (blinkInit (9 / 500) 220 (3 / 1000) none none none none)
        (blinkUpdate (blinkInit (9 / 500) 220 (3 / 1000) none none none none)
          blinkInitState (1 / 1000) (1 / 1000) 0).2 (1 / 10) (1 / 10) (7 / 10)).1 =
      { left_closed := false, right_closed := false, both_closed := false,
        left_blink := true, right_blink := true, both_blink := false } := by
  constructor
  · norm_num [blinkUpdate, blinkInit, blinkInitState]
  · norm_num [blinkUpdate, blinkInit, blinkInitState]

/-- C5: on the transition back to both-open, `BlinkDetector.update`
reports a both-eyes blink if and only if the elapsed closed duration
`t1 - t0` lies within `[blink_min, blink_max]`, which with the default
window arguments equals `[0.4 * base, 3.0 * base]` for
`base = min_closed_ms / 1000`.  Stated for any state in a both-closed
configuration (`prev_B` set, both raw channels closed, `tB = t0`) and
any reopening frame (both ratios at or above `open_thr`). -/
theorem both_blink_window_iff (eye_close_thr min_closed_ms rawL rawR t0 t1 : ℚ)
    (s : BlinkState)
    (hl : s.l_closed_raw = true) (hr : s.r_closed_raw = true)
    (hpB : s.prev_B = true) (htB : s.tB = t0)
    (hL : eye_close_thr + 3 / 1000 ≤ rawL) (hR : eye_close_thr + 3 / 1000 ≤ rawR) :
    (blinkUpdate (blinkInit eye_close_thr min_closed_ms (3 / 1000) none none none none)
        s rawL rawR t1).1.both_blink = true ↔
      min_closed_ms / 1000 * (4 / 10) ≤ t1 - t0 ∧
        t1 - t0 ≤ min_closed_ms / 1000 * 3 := by
  have hL2 : ¬(rawL < eye_close_thr + 3 / 1000) := not_lt.mpr hL
  have hR2 : ¬(rawR < eye_close_thr + 3 / 1000) := not_lt.mpr hR
  simp [blinkUpdate, blinkInit, hl, hr, hpB, htB, hL2, hR2]

/-- C5 witness: with the defaults (`min_closed_ms = 220`, so
`blink_min = 0.088 s`), a both-eyes closure lasting exactly `blink_min`
(closed at `t0 = 0`, reopened at `t1 = 11/125 = 0.088`) is classified as
a blink. -/
theorem both_blink_window_iff_witness :
    (blinkUpdate (blinkInit (9 / 500) 220 (3 / 1000) none none none none)
        { l_closed_raw := true, r_closed_raw := true, prev_L := true,
          prev_R := true, prev_B := true, tL := 0, tR := 0, tB := 0,
          both_dominant := true } 1 1 (11 / 125)).1.both_blink = true := by
  rw [both_blink_window_iff (9 / 500) 220 1 1 0 (11 / 125) _ rfl rfl rfl rfl
      (by norm_num) (by norm_num)]
  norm_num

-- Labels of the kept points of `record_all` are exactly the labels of the
-- collected points that reached 4 samples.
theorem filterMap_keep_fst (l : List (String × List (ℚ × ℚ))) :
    ((l.filterMap fun p =>
        if p.2.length < 4 then none
        else some (p.1, (median (p.2.map Prod.fst), median (p.2.map Prod.snd)))).map
      Prod.fst)
      = (l.filter fun p => decide (4 ≤ p.2.length)).map Prod.fst := by
  induction l with
  | nil => rfl
  | cons a l ih =>
      by_cases h : a.2.length < 4
      · have h2 : ¬(4 ≤ a.2.length) := by omega
        simp [List.filterMap_cons, List.filter_cons, h, h2, ih]
      · have h2 : 4 ≤ a.2.length := by omega
        simp [List.filterMap_cons, List.filter_cons, h, h2, ih]

/-- C8: `Calibration.record_all` surfaces an error to the caller (the
`ValueError` from `min([])`) if and only if every point of the session
collected fewer than 4 samples, i.e. zero anchor points were kept — it
never completes silently in that case; and whenever it completes, the
profile's anchor labels are exactly the labels of the points that
collected at least 4 samples, so under-sampled points are skipped while
calibration still completes on the remaining ones. -/
theorem record_all_fails_iff_no_points (collected : List (String × List (ℚ × ℚ))) :
    ((∃ e, recordAll collected = Except.error e) ↔
      ∀ p ∈ collected, p.2.length < 4) ∧
    (∀ prof, recordAll collected = Except.ok prof →
      prof.points.map Prod.fst =
        (collected.filter fun p => decide (4 ≤ p.2.length)).map Prod.fst) := by
  unfold recordAll
  rcases hp : collected.filterMap fun p =>
      if p.2.length < 4 then none
      else some (p.1, (median (p.2.map Prod.fst), median (p.2.map Prod.snd))) with
    _ | ⟨a, l⟩
  · rw [List.filterMap_eq_nil_iff] at hp
    constructor
    · constructor
      · intro _ p hpmem
        by_contra hlen
        have := hp p hpmem
        rw [if_neg hlen] at this
        exact Option.noConfusion this
      · intro _
        exact ⟨"min() arg is an empty sequence", by simp [List.filterMap_eq_nil_iff.mpr hp]⟩
    · intro prof hok
      simp [List.filterMap_eq_nil_iff.mpr hp] at hok
  · constructor
    · constructor
      · intro ⟨e, he⟩
        simp [hp, List.max?] at he
      · intro hall
        have : (a :: l) = [] := by
          rw [← hp, List.filterMap_eq_nil_iff]
          intro p hpmem
          rw [if_pos (hall p hpmem)]
        exact absurd this (List.cons_ne_nil a l)
    · intro prof hok
      simp only [hp, List.max?] at hok
      have hprof : prof.points = a :: l := by
        cases hok
        rfl
      rw [hprof, ← hp, filterMap_keep_fst]

/-- C8 witness: a session where point "TL" collected 4 samples and point
"TC" only 1: `record_all` does not fail, and the completed profile keeps
exactly the label "TL". -/
theorem record_all_fails_iff_no_points_witness :
    ¬(∃ e, recordAll [("TL", [((0 : ℚ), (0 : ℚ)), (0, 0), (0, 0), (0, 0)]),
        ("TC", [(5, 5)])] = Except.error e) ∧
    ∀ prof, recordAll [("TL", [((0 : ℚ), (0 : ℚ)), (0, 0), (0, 0), (0, 0)]),
        ("TC", [(5, 5)])] = Except.ok prof →
      prof.points.map Prod.fst = ["TL"] := by
  constructor
  · intro he
    have := (record_all_fails_iff_no_points _).1.mp he
    have h4 := this ("TL", [((0 : ℚ), (0 : ℚ)), (0, 0), (0, 0), (0, 0)]) (by simp)
    simp at h4
  · intro prof hok
    have := (record_all_fails_iff_no_points _).2 prof hok
    simpa using this

/-- C6: while locked, a gaze point within the dead zone of the locked
target's center keeps the state locked, returns the locked target's
center as `cursor_pos`, clears `away_since`, reports `action = none`,
and leaves the locked target unchanged — so jitter within the dead zone
never changes `cursor_pos`. -/
theorem locked_dead_zone_keeps_cursor (s : LockState) (t : Target)
    (g : ℚ × ℚ) (now : ℚ)
    (hlock : s.locked_target = some t)
    (hdz : distSq g t.center ≤ s.dead_zone ^ 2) :
    (pushGaze s g now).1 =
      { state := "locked", target := some t, cursor_pos := t.center,
        action := "none", time_left := none } ∧
    (pushGaze s g now).2.away_since = none ∧
    (pushGaze s g now).2.locked_target = some t := by
  simp [pushGaze, hlock, hdz]

/-- C6 witness: locked onto a target centred at `(100, 100)` with the
default dead zone 18 px, the gaze point `(105, 100)` (distance 5) keeps
`cursor_pos` at `(100, 100)` with `action = none`. -/
theorem locked_dead_zone_keeps_cursor_witness :
    (pushGaze { lockInit with
        locked_target := some { id := "b", center := ((100 : ℚ), (100 : ℚ)) } }
      (105, 100) 1).1 =
      { state := "locked",
        target := some { id := "b", center := ((100 : ℚ), (100 : ℚ)) },
        cursor_pos := (100, 100), action := "none", time_left := none } :=
  (locked_dead_zone_keeps_cursor _ _ _ _ rfl (by norm_num [distSq, lockInit])).1

/-- C9: while locked, refreshing the target list with any snapshot —
including one omitting the locked target's id, or an empty list —
leaves the lock in place (`update_targets` only swaps the `targets`
field) and does not change what `push_gaze` returns, since the locked
branch never consults the target list; whenever the result stays locked
its `cursor_pos` is the locked target's last known center, and the lock
is released only when the result's distance/velocity unlock rules fired,
which requires the gaze to be beyond the unlock distance. -/
theorem lock_survives_target_refresh (s : LockState) (t : Target)
    (ts : List Target) (g : ℚ × ℚ) (now : ℚ)
    (hlock : s.locked_target = some t) :
    (updateTargets s ts).locked_target = some t ∧
    (pushGaze (updateTargets s ts) g now).1 = (pushGaze s g now).1 ∧
    ((pushGaze s g now).1.state = "locked" →
      (pushGaze s g now).1.cursor_pos = t.center) ∧
    ((pushGaze s g now).1.state = "free" →
      s.unlock_distance ^ 2 < distSq g t.center) := by
  refine ⟨hlock ▸ rfl, ?_, ?_, ?_⟩
  · rcases haw : s.away_since with _ | a
    · simp only [pushGaze, updateTargets, estimateVelocitySq, hlock, haw]
      split_ifs <;> rfl
    · simp only [pushGaze, updateTargets, estimateVelocitySq, hlock, haw]
      split_ifs <;> rfl
  · rcases haw : s.away_since with _ | a <;>
      · simp only [pushGaze, updateTargets, estimateVelocitySq, hlock, haw]
        split_ifs <;> simp
  · rcases haw : s.away_since with _ | a
    · simp only [pushGaze, hlock, haw]
      split_ifs with h1 h2 h3 <;> simp
      exact h2.1
    · simp only [pushGaze, hlock, haw]
      split_ifs with h1 h2 h3 h4 <;> simp
      · exact h2.1
      · exact h3

/-- C9 witness: locked onto a target centred at `(100, 100)`, refreshing
the targets with the empty list keeps the lock, and a nearby gaze point
still yields the same `push_gaze` result as without the refresh. -/
theorem lock_survives_target_refresh_witness :
    (updateTargets { lockInit with
        locked_target := some { id := "b", center := ((100 : ℚ), (100 : ℚ)) } }
      []).locked_target = some { id := "b", center := ((100 : ℚ), (100 : ℚ)) } ∧
    (pushGaze (updateTargets { lockInit with
        locked_target := some { id := "b", center := ((100 : ℚ), (100 : ℚ)) } } [])
      (105, 100) 1).1 =
    (pushGaze { lockInit with
        locked_target := some { id := "b", center := ((100 : ℚ), (100 : ℚ)) } }
      (105, 100) 1).1 :=
  ⟨(lock_survives_target_refresh _ _ [] (105, 100) 1 rfl).1,
   (lock_survives_target_refresh _ _ [] (105, 100) 1 rfl).2.1⟩


-- Scanning from an already-populated accumulator always yields a winner
-- whose distance is no larger than the accumulator's.
theorem findNearestAux_some (g : ℚ × ℚ) (ts : List Target) :
    ∀ b bd, ∃ n dn, findNearestAux g (some (b, bd)) ts = some (n, dn) ∧ dn ≤ bd := by
  induction ts with
  | nil => exact fun b bd => ⟨b, bd, rfl, le_refl _⟩
  | cons t ts ih =>
      intro b bd
      simp only [findNearestAux]
      by_cases hd : distSq g t.center < bd
      · rw [if_pos hd]
        obtain ⟨n, dn, h1, h2⟩ := ih t (distSq g t.center)
        exact ⟨n, dn, h1, le_trans h2 (le_of_lt hd)⟩
      · rw [if_neg hd]
        exact ih b bd

-- The nearest-target scan of `push_gaze`: if some target of the list is
-- within squared distance `d` of the gaze, the scan returns a winner at
-- squared distance at most `d`.
theorem findNearestAux_mem (g : ℚ × ℚ) :
    ∀ (ts : List Target) (acc : Option (Target × ℚ)) (t : Target), t ∈ ts →
      ∃ n dn, findNearestAux g acc ts = some (n, dn) ∧ dn ≤ distSq g t.center := by
  intro ts
  induction ts with
  | nil => intro acc t ht; cases ht
  | cons hd tl ih =>
      intro acc t ht
      rcases List.mem_cons.mp ht with heq | hmem
      · subst heq
        simp only [findNearestAux]
        cases acc with
        | none => exact findNearestAux_some g tl t (distSq g t.center)
        | some p =>
            obtain ⟨b, bd⟩ := p
            dsimp only
            by_cases hd : distSq g t.center < bd
            · rw [if_pos hd]
              exact findNearestAux_some g tl t (distSq g t.center)
            · rw [if_neg hd]
              obtain ⟨n, dn, h1, h2⟩ := findNearestAux_some g tl b bd
              exact ⟨n, dn, h1, le_trans h2 (not_lt.mp hd)⟩
      · simp only [findNearestAux]
        cases acc with
        | none => exact ih _ t hmem
        | some p =>
            obtain ⟨b, bd⟩ := p
            dsimp only
            by_cases hd : distSq g hd.center < bd
            · rw [if_pos hd]; exact ih _ t hmem
            · rw [if_neg hd]; exact ih _ t hmem

-- Appending the first gaze point to an empty history leaves fewer than
-- two entries whatever the deque capacity.
theorem pushDeque_nil_length {α : Type} (n : ℕ) (x : α) :
    (pushDeque n ([] : List α) x).length < 2 := by
  simp only [pushDeque]
  split_ifs <;> simp
  omega

-- A history of fewer than two samples always estimates velocity 0.
theorem estVelSq_short (s : LockState) (h : s.gaze_history.length < 2) :
    estimateVelocitySq s = 0 := by
  simp [estimateVelocitySq, h]

/-- C10: `GazeLockManager.estimate_velocity` returns exactly `0`
whenever the gaze history holds fewer than two entries, and whenever the
window's newest and oldest timestamps differ by at most `1e-6` seconds
(the guard that prevents the division); consequently, on a first
`push_gaze` call (empty histories, nothing locked, positive velocity
threshold), the gating velocity is `0`, below `0.35 ×` the velocity
threshold, so the presence of any target within the snap radius makes
that very frame snap-lock. -/
theorem first_push_snap_lock :
    (∀ s : LockState, s.gaze_history.length < 2 → estimateVelocitySq s = 0) ∧
    (∀ s : LockState,
        s.time_history.getLastD 0 - s.time_history.headD 0 ≤ 1 / 1000000 →
        estimateVelocitySq s = 0) ∧
    (∀ (s : LockState) (g : ℚ × ℚ) (now : ℚ) (t : Target),
        s.gaze_history = [] → s.locked_target = none → 0 < s.vel_thresh →
        t ∈ s.targets → distSq g t.center ≤ s.snap_radius ^ 2 →
        (pushGaze s g now).1.action = "snap" ∧
        (pushGaze s g now).1.state = "locked" ∧
        (pushGaze s g now).2.locked_target ≠ none) := by
  refine ⟨estVelSq_short, ?_, ?_⟩
  · intro s h
    unfold estimateVelocitySq
    by_cases h1 : s.gaze_history.length < 2
    · rw [if_pos h1]
    · rw [if_neg h1]
      exact if_pos h
  · intro s g now t hg hlock hthresh hmem hsnap
    obtain ⟨n, dn, hfind, hdn⟩ := findNearestAux_mem g s.targets none t hmem
    have hns : ¬(s.snap_radius ^ 2 < dn) := not_lt.mpr (le_trans hdn hsnap)
    have hvlt : (0 : ℚ) < (s.vel_thresh * (35 / 100)) ^ 2 :=
      pow_pos (by positivity) 2
    simp [pushGaze, hlock, findNearest, hfind, hns, hvlt, estVelSq_short, hg,
      pushDeque_nil_length]

/-- C10 witness: from a fresh manager (empty histories, default
parameters) holding one target centred at `(100, 100)`, the very first
`push_gaze` at `(100, 110)` (distance 10 ≤ snap radius 140) snap-locks
immediately; and the velocity estimate of the fresh manager is `0`. -/
theorem first_push_snap_lock_witness :
    estimateVelocitySq lockInit = 0 ∧
    (pushGaze { lockInit with
        targets := [{ id := "b", center := ((100 : ℚ), (100 : ℚ)) }] }
      (100, 110) 0).1.action = "snap" ∧
    (pushGaze { lockInit with
        targets := [{ id := "b", center := ((100 : ℚ), (100 : ℚ)) }] }
      (100, 110) 0).1.state = "locked" :=
  ⟨first_push_snap_lock.1 lockInit (by simp [lockInit]),
   (first_push_snap_lock.2.2 _ (100, 110) 0 { id := "b", center := (100, 100) }
      rfl rfl (by norm_num [lockInit]) (by simp [lockInit])
      (by norm_num [distSq, lockInit])).1,
   (first_push_snap_lock.2.2 _ (100, 110) 0 { id := "b", center := (100, 100) }
      rfl rfl (by norm_num [lockInit]) (by simp [lockInit])
      (by norm_num [distSq, lockInit])).2.1⟩

-- `BlinkDetector.update` can only report a both-eyes blink on the frame
-- where both eyes are no longer closed, so a frame carrying a both-blink
-- event always carries `both_closed = false`.  This justifies assuming
-- that combination for the control-loop inputs below.
theorem blinkUpdate_both_blink_not_closed (p : BlinkParams) (s : BlinkState)
    (rawL rawR now : ℚ)
    (h : (blinkUpdate p s rawL rawR now).1.both_blink = true) :
    (blinkUpdate p s rawL rawR now).1.both_closed = false := by
  revert h
  unfold blinkUpdate
  dsimp only
  rcases hL : (if s.r_closed_raw then decide (rawR < p.open_thr)
      else decide (rawR < p.close_thr)) with _ | _ <;>
    rcases hR : (if s.l_closed_raw then decide (rawL < p.open_thr)
      else decide (rawL < p.close_thr)) with _ | _ <;>
    simp [hL, hR]

/-- C3 counterexample: the claim requires the force-release safety nets
to act in all reachable states "including frames where no face is
detected".  Reachable run refuting it: from the initial state, a face
frame with only the user-left eye closed at `t = 0` starts a drag
(button down); a frame with no detected face at `t = 10` — with the
button held for 10 s, four times the 2.5 s maximum — emits no event at
all and leaves the drag active and the button down, because the whole
per-frame body runs only under `if res.multi_face_landmarks:`. -/
theorem drag_not_released_without_face :
    (mainStep mainInit
        (some { left_closed := true, right_closed := false, both_closed := false,
                left_blink := false, right_blink := false, both_blink := false })
        0).1.drag_active = true ∧
    (mainStep (mainStep mainInit
        (some { left_closed := true, right_closed := false, both_closed := false,
                left_blink := false, right_blink := false, both_blink := false })
        0).1 none 10).1.drag_active = true ∧
    (mainStep (mainStep mainInit
        (some { left_closed := true, right_closed := false, both_closed := false,
                left_blink := false, right_blink := false, both_blink := false })
        0).1 none 10).1.mouse_left_down = true ∧
    (mainStep (mainStep mainInit
        (some { left_closed := true, right_closed := false, both_closed := false,
                left_blink := false, right_blink := false, both_blink := false })
        0).1 none 10).2 = [] := by
  norm_num [mainStep, mainInit, scrollActivation, doubleClickWindow, maxDragDuration]

/-- C3 amended: on every frame where a face IS detected, a
gesture-initiated button-held-down state is force-released — the step
emits `mouseUp(left)` — whenever (a) the drag has been held longer than
the maximum drag duration (2.5 s), or (b) a both-eyes blink event fires
while the drag is active; any drag still active after such a frame is a
fresh one started on that very frame (`drag_start_time = now`).  On
frames where no face is detected, the loop body is skipped whole and no
release happens (see the counterexample). -/
theorem drag_released_on_face_frames (s : MainState) (f : FrameIn) (now : ℚ)
    (hbf : f.both_blink = true → f.both_closed = false)
    (h : (s.drag_active = true ∧ maxDragDuration < now - s.drag_start_time) ∨
         (f.both_blink = true ∧ s.drag_active = true)) :
    MEvent.mouseUpLeft ∈ (mainStep s (some f) now).2 ∧
    ((mainStep s (some f) now).1.drag_active = true →
      (mainStep s (some f) now).1.drag_start_time = now) := by
  have hdrag : s.drag_active = true := by rcases h with ⟨h1, _⟩ | ⟨_, h1⟩ <;> exact h1
  rcases hbc : f.both_closed with _ | _
  · -- face frame without both eyes closed: scroll mode turns off
    rcases hbb : f.both_blink with _ | _
    · -- no both-blink: hypothesis (a) must hold
      rcases h with ⟨_, h2⟩ | ⟨h2, _⟩
      · rcases hgest : f.left_closed && !f.right_closed with _ | _ <;>
          simp [mainStep, hdrag, hbc, hbb, hgest, h2, not_lt.mpr (le_of_lt h2)]
      · exact absurd h2 (by simp [hbb])
    · -- both-blink fires: the click block releases the drag first
      rcases hgest : f.left_closed && !f.right_closed with _ | _ <;>
        simp [mainStep, hdrag, hbc, hbb, hgest]
  · -- both eyes closed this frame: no blink event (hbf), scroll mode may
    -- persist but the drag block's else-branch still releases
    have hbb : f.both_blink = false := by
      rcases hbb2 : f.both_blink with _ | _
      · rfl
      · exact absurd (hbf hbb2) (by simp [hbc])
    rcases h with ⟨_, h2⟩ | ⟨h2, _⟩
    · rcases hsm : s.scroll_mode with _ | _ <;>
        simp_all [mainStep, hdrag, hbc, hbb, hsm, not_lt.mpr (le_of_lt h2)]
    · exact absurd h2 (by simp [hbb])

/-- C3 witness: a face frame (all eyes open, no events) at `t = 3` with a
drag active since `t = 0` (held 3 s > 2.5 s) emits `mouseUp(left)` and
deactivates the drag. -/
theorem drag_released_on_face_frames_witness :
    MEvent.mouseUpLeft ∈ (mainStep
      { drag_active := true, drag_start_time := 0, scroll_mode := false,
        both_closed_start := none, last_left_click_time := 0,
        mouse_left_down := true }
      (some { left_closed := false, right_closed := false, both_closed := false,
              left_blink := false, right_blink := false, both_blink := false })
      3).2 :=
  (drag_released_on_face_frames _ _ 3 (by intro h; cases h)
    (Or.inl ⟨rfl, by norm_num [maxDragDuration]⟩)).1
